import Mathlib

/-!
Shallow embedding of the vueify component compiler (src/lib/compiler.js).

The compile pipeline parses a component document into template / script /
style parts, compiles each part through a pluggable registry, and merges the
compiled parts into one output module.  External collaborators (the document
parser, the per-language compilers, the template translator, the style
rewriter, the hash functions, the filesystem) are parameters of the model,
gathered in the `Ctx` structure.  JavaScript `undefined` is modelled with
`Option`/`JSVal.undefined`; JavaScript strict inequality on the cached template
object is reference comparison, modelled by a per-run allocation tag
(`TemplateObj.ref`).  The scheduling model is sequential (template, then
script, then styles), matching the single-threaded cooperative model of the
source; `Promise.all` rejection with the first failure is modelled by the
first failing part in that order.
-/

namespace Vueify

/-- Errors raised inside the pipeline (registry transform errors and the
JavaScript TypeErrors raised by property access on `undefined`). -/
inductive JSErr where
  | typeError (msg : String)
  | compileFailed (msg : String)
deriving DecidableEq, Repr

/-- An incoming source map from a script compiler, modelled by its
`originalPositionFor` consumer: generated line to original line. -/
def InMap : Type := Nat → Option Nat

/-- A JavaScript value flowing through `compileAsPromise`: `undefined`
(a missing external file), a plain string, or a `{code, map}` pair. -/
inductive JSVal where
  | undefined
  | str (s : String)
  | codeMap (code : String) (map : Option InMap)

/-- A registry transform: `(source, callback, compiler, filePath)`; the
callback either errors or yields a result value. -/
def CompilerFn : Type := JSVal → String → Except JSErr JSVal

/-- One block extracted by `vueCompiler.parseComponent`: content, language
tag, external source reference, scoped flag and the byte offset of the
block in the document (`start`, used for template line remapping). -/
structure SFCBlock where
  content : String
  lang : Option String
  src : Option String
  scopedFlag : Bool
  start : Nat

/-- The result of `vueCompiler.parseComponent`: at most one template, at
most one script, and an ordered list of style blocks. -/
structure ParsedComponent where
  template : Option SFCBlock
  script : Option SFCBlock
  styles : List SFCBlock

/-- The object returned by the external template translator
(`compileTemplate`).  `ref` models the JavaScript object identity of the
freshly allocated render-function pair: each compilation run allocates a
new object, so two runs never produce reference-equal templates. -/
structure TemplateObj where
  ref : Nat
  render : String
  staticRenderFns : String

/-- The resolved parts of one run before the template object is given its
identity tag (the data produced by the three part compilers). -/
structure PreResolved where
  template : Option (String × String)
  script : Option String
  map : Option InMap
  styles : List String

/-- `resolvedParts` of one compilation run, as stored in
`resolvedPartsCache`: `template` and `script` start out `null` (`none`). -/
structure ResolvedParts where
  template : Option TemplateObj
  script : Option String
  map : Option InMap
  styles : List String

/-- Notifications emitted on the compiler object: `dependency` (one per
externally referenced part file) and `style` (file path plus joined CSS). -/
inductive Event where
  | dependency (path : String)
  | style (file : String) (css : String)
deriving DecidableEq, Repr

/-- One entry added by `map.addMapping`. -/
structure Mapping where
  source : String
  genLine : Nat
  genCol : Nat
  origLine : Nat
  origCol : Nat
deriving DecidableEq, Repr

/-- The `SourceMapGenerator` state: source name (with the content-hash
disambiguator), the registered source content and the mapping list. -/
structure SMap where
  hashedFilename : String
  sourceContent : String
  mappings : List Mapping
deriving DecidableEq, Repr

/-- Environment switches read from the process environment at compile
time: `NODE_ENV === "production"`, `VUE_ENV === "server"`, `VUEIFY_TEST`. -/
structure Env where
  isProduction : Bool
  isServer : Bool
  isTest : Bool
deriving DecidableEq, Repr

/-- The configuration options consulted by the merge step. -/
structure Options where
  extractCSS : Bool
  sourceMap : Bool
deriving DecidableEq, Repr

/-- External collaborators of the compiler, passed as parameters of the
model.  `parseComponent` is vue-template-compiler; `genId` is gen-id.js
(modelled from the spec: a deterministic fingerprint of the file path);
`compilers` is the registry of compilers.js (modelled from the spec: a
mapping from language tag to transform, `none` meaning no entry, including
the `null` language); `compileTemplate` is the template translator
(modelled from the spec: it returns a freshly allocated render-function
pair, so only its string contents are a function of the input);
`rewriteStyle` is the scoped-style rewriter; `fs` is the filesystem. -/
structure Ctx where
  parseComponent : String → ParsedComponent
  genId : String → String
  compilers : Option String → Option CompilerFn
  compileTemplate : JSVal → String × String
  rewriteStyle : String → String → Bool → String
  hashSum : String → String
  basename : String → String
  resolvePath : String → String → String
  jsonStringify : String → String
  mapToComment : SMap → String
  fs : String → Option String
  hasBabel : Bool
  hotReloadAPIPath : String
  insertCSSPath : String

/-- Process-wide mutable state: the `resolvedPartsCache` keyed by scope id,
plus the allocation counter that models JavaScript object identity for
template objects. -/
structure CState where
  cache : List (String × ResolvedParts)
  nextRef : Nat

/-- The observable outcome of one `compiler.compile` call: the callback
argument (`error` or output text), the notifications emitted, and the
process state afterwards. -/
structure RunOut where
  result : Except JSErr String
  events : List Event
  state : CState

/-! ## String utilities: the `/\r?\n/` split used throughout the source. -/

/-- Core loop of splitting on the regular expression `\r?\n`: a newline,
optionally preceded by a carriage return, separates lines. -/
def jsSplitCore : List Char → List Char → List String → List String
  | [], acc, out => (String.mk acc.reverse :: out).reverse
  | '\n' :: rest, acc, out =>
      match acc with
      | '\r' :: acc2 => jsSplitCore rest [] (String.mk acc2.reverse :: out)
      | _ => jsSplitCore rest [] (String.mk acc.reverse :: out)
  | c :: rest, acc, out => jsSplitCore rest (c :: acc) out

/-- `s.split(splitRE)` of the source (`splitRE = /\r?\n/g`). -/
def jsSplitLines (s : String) : List String :=
  jsSplitCore s.toList [] []

/-- `s.split(splitRE).length`. -/
def jsSplitLen (s : String) : Nat :=
  (jsSplitLines s).length

/-- `content.slice(0, n)` (character based; the documents in scope are
plain text). -/
def strTake (s : String) (n : Nat) : String :=
  String.mk (s.toList.take n)

/-- JavaScript whitespace for `String.prototype.trim`. -/
def isWS (c : Char) : Bool :=
  c == ' ' || c == '\t' || c == '\n' || c == '\r'

/-- `s.trim()`: strip leading and trailing whitespace. -/
def jsTrim (s : String) : String :=
  String.mk (((s.toList.dropWhile isWS).reverse.dropWhile isWS).reverse)

/-- Does the pattern occur at the head of the list? -/
def leadsWith : List Char → List Char → Bool
  | _, [] => true
  | [], _ :: _ => false
  | c :: cs, d :: ds => c == d && leadsWith cs ds

/-- Does the pattern occur anywhere in the list? -/
def hasSubAux : List Char → List Char → Bool
  | [], p => p.isEmpty
  | c :: cs, p => leadsWith (c :: cs) p || hasSubAux cs p

/-- Substring occurrence test on strings. -/
def strHasSub (s pat : String) : Bool :=
  hasSubAux s.toList pat.toList

/-- Substring occurrence inside a successful compile result. -/
def resultHasSub : Except JSErr String → String → Bool
  | .ok s, pat => strHasSub s pat
  | .error _, _ => false

/-- The `i`-th line (0-based) of a successful compile result. -/
def resultNthLine : Except JSErr String → Nat → Option String
  | .ok s, i => (jsSplitLines s).get? i
  | .error _, _ => none

/-- Is the compile result exactly this output text? -/
def resultIsOkStr (r : Except JSErr String) (s : String) : Bool :=
  match r with
  | .ok t => t == s
  | .error _ => false

/-! ## JavaScript truthiness and strict inequality on the cached slots. -/

/-- Truthiness of a string-or-null slot (`null` and `""` are falsy). -/
def jsTruthy : Option String → Bool
  | none => false
  | some s => s != ""

/-- JavaScript `!==` on `resolvedParts.script` slots (`null` or string):
value comparison on strings, `null !== null` is false. -/
def jsStrictNeqScript : Option String → Option String → Bool
  | none, none => false
  | some a, some b => a != b
  | _, _ => true

/-- JavaScript `!==` on `resolvedParts.template` slots (`null` or object):
reference comparison on objects, modelled by the allocation tag. -/
def jsStrictNeqTemplate : Option TemplateObj → Option TemplateObj → Bool
  | none, none => false
  | some a, some b => a.ref != b.ref
  | _, _ => true

/-- `resolvedParts.script !== prevParts.script`, where a cache miss makes
`prevParts` the empty object (so the slot reads `undefined`, which is
strictly unequal to both `null` and every string). -/
def scriptChanged (cur : Option String) (prev : Option ResolvedParts) : Bool :=
  match prev with
  | none => true
  | some p => jsStrictNeqScript cur p.script

/-- `resolvedParts.template !== prevParts.template` under the same
convention for a cache miss. -/
def templateChanged (cur : Option TemplateObj) (prev : Option ResolvedParts) : Bool :=
  match prev with
  | none => true
  | some p => jsStrictNeqTemplate cur p.template

/-! ## The cache. -/

/-- Lookup in `resolvedPartsCache`. -/
def cacheLookup : List (String × ResolvedParts) → String → Option ResolvedParts
  | [], _ => none
  | (k, v) :: rest, id => if k = id then some v else cacheLookup rest id

/-- `resolvedPartsCache[id] = resolvedParts`. -/
def cacheInsert (c : List (String × ResolvedParts)) (id : String)
    (rp : ResolvedParts) : List (String × ResolvedParts) :=
  (id, rp) :: c

/-! ## Part compilation (processTemplate / processScript / processStyle). -/

/-- `'data-v-' + genId(filePath)`.  Modelled from the spec: gen-id.js is
not under src/; the spec specifies a deterministic short fingerprint of
the file path. -/
def scopeId (ctx : Ctx) (filePath : String) : String :=
  "data-v-" ++ ctx.genId filePath

/-- `part.lang || alt`: JavaScript or-else, where the empty string is
falsy. -/
def langOr (lang alt : Option String) : Option String :=
  match lang with
  | some s => if s = "" then alt else some s
  | none => alt

/-- `getContent` / `loadSrc`: resolve a part content; an external source
reference emits a `dependency` notification with the resolved path before
the read is attempted, and a failed read leaves the content `undefined`
(the catch branch only logs). -/
def getContent (ctx : Ctx) (p : SFCBlock) (filePath : String) :
    JSVal × List Event :=
  match p.src with
  | some src =>
      if src = "" then (.str p.content, [])
      else
        match ctx.fs (ctx.resolvePath filePath src) with
        | some txt => (.str txt, [.dependency (ctx.resolvePath filePath src)])
        | none => (.undefined, [.dependency (ctx.resolvePath filePath src)])
  | none => (.str p.content, [])

/-- `compileAsPromise`: look up the language tag in the registry; a missing
entry is the identity transform; a present entry may fail, which rejects
the part. -/
def compileAsPromise (ctx : Ctx) (_type : String) (source : JSVal)
    (lang : Option String) (filePath : String) : Except JSErr JSVal :=
  match ctx.compilers lang with
  | some compile => compile source filePath
  | none => .ok source

/-- Post-processing of the script transform result: a plain string is the
code with no map, a `{code, map}` pair contributes both, and `undefined`
raises the TypeError of reading `.code` on `undefined`. -/
def postScript (res : JSVal) : Except JSErr (Option String × Option InMap) :=
  match res with
  | .str s => .ok (some s, none)
  | .codeMap c m => .ok (some c, m)
  | .undefined => .error (.typeError "Cannot read properties of undefined (reading code)")

/-- `processTemplate` minus content resolution: compile through the
registry, then hand the result to the external template translator. -/
def compileTemplatePart (ctx : Ctx) (tpl : Option (SFCBlock × JSVal))
    (filePath : String) : Except JSErr (Option (String × String)) :=
  match tpl with
  | none => .ok none
  | some (p, v) =>
      (compileAsPromise ctx "template" v p.lang filePath).map
        (fun res => some (ctx.compileTemplate res))

/-- `processScript` minus content resolution: the language falls back to
`babel` when babel-core is importable, then the registry transform runs and
the result is post-processed. -/
def compileScriptPart (ctx : Ctx) (scr : Option (SFCBlock × JSVal))
    (filePath : String) : Except JSErr (Option String × Option InMap) :=
  match scr with
  | none => .ok (none, none)
  | some (p, v) =>
      (compileAsPromise ctx "script" v
        (langOr p.lang (if ctx.hasBabel then some "babel" else none))
        filePath).bind postScript

/-- `processStyle` minus content resolution: registry transform, then
`res.trim()` (a TypeError when the resolved content was `undefined`),
then the external scope rewriter. -/
def compileStylePart (ctx : Ctx) (p : SFCBlock) (v : JSVal)
    (id filePath : String) : Except JSErr String :=
  (compileAsPromise ctx "style" v p.lang filePath).bind
    (fun res =>
      match res with
      | .str s => .ok (ctx.rewriteStyle id (jsTrim s) p.scopedFlag)
      | .undefined => .error (.typeError "Cannot read properties of undefined (reading trim)")
      | .codeMap _ _ => .error (.typeError "res.trim is not a function"))

/-- All style parts, in extraction order. -/
def compileStyleParts (ctx : Ctx) (ps : List (SFCBlock × JSVal))
    (id filePath : String) : Except JSErr (List String) :=
  match ps with
  | [] => .ok []
  | (p, v) :: rest => do
      let s ← compileStylePart ctx p v id filePath
      let t ← compileStyleParts ctx rest id filePath
      pure (s :: t)

/-- The `Promise.all` of the three part compilers.  Content resolution
happens synchronously for every part up front (so every `dependency`
notification is emitted even when a later compilation fails); the compile
phases then run under the sequential scheduling model, and the first
failing part rejects the whole run. -/
def processAllParts (ctx : Ctx) (parts : ParsedComponent)
    (filePath id : String) : Except JSErr PreResolved × List Event :=
  let tpl := parts.template.map (fun p => (p, getContent ctx p filePath))
  let scr := parts.script.map (fun p => (p, getContent ctx p filePath))
  let sty := parts.styles.map (fun p => (p, getContent ctx p filePath))
  let evs :=
    (match tpl with | some pe => pe.2.2 | none => []) ++
    (match scr with | some pe => pe.2.2 | none => []) ++
    (sty.map (fun pe => pe.2.2)).flatten
  let res : Except JSErr PreResolved := do
    let t ← compileTemplatePart ctx (tpl.map (fun pe => (pe.1, pe.2.1))) filePath
    let sm ← compileScriptPart ctx (scr.map (fun pe => (pe.1, pe.2.1))) filePath
    let ss ← compileStyleParts ctx (sty.map (fun pe => (pe.1, pe.2.1))) id filePath
    pure ⟨t, sm.1, sm.2, ss⟩
  (res, evs)

/-- Give the freshly compiled template its object identity for this run. -/
def materialize (pre : PreResolved) (ref : Nat) : ResolvedParts :=
  { template := pre.template.map (fun rs => ⟨ref, rs.1, rs.2⟩)
    script := pre.script
    map := pre.map
    styles := pre.styles }

/-! ## The merge engine (mergeParts), clause by clause. -/

/-- `resolvedParts.styles.join('\n')`. -/
def styleJoin (rp : ResolvedParts) : String :=
  String.intercalate "\n" rp.styles

/-- The guard `style && !isServer` around the style notification. -/
def styleActive (env : Env) (rp : ResolvedParts) : Bool :=
  styleJoin rp != "" && !env.isServer

/-- The `style` notification emitted by the merge step. -/
def styleEvts (env : Env) (rp : ResolvedParts) (filePath : String) : List Event :=
  if styleActive env rp then [.style filePath (styleJoin rp)] else []

/-- The runtime style-injection line, emitted when styles are present on a
client build and CSS extraction is off. -/
def styleInjectLine (ctx : Ctx) (css : String) : String :=
  "var __vueify_style_dispose__ = require(\"" ++ ctx.insertCSSPath ++
    "\").insert(" ++ ctx.jsonStringify css ++ ")\n"

/-- The output text preceding the script block. -/
def styleOut (env : Env) (opts : Options) (ctx : Ctx) (rp : ResolvedParts) : String :=
  if styleActive env rp && !opts.extractCSS then styleInjectLine ctx (styleJoin rp)
  else ""

/-- The `style && !options.extractCSS` guard on the hot-reload dispose
hook (after the reassignment `style = JSON.stringify(style)`, which keeps
a non-empty style non-empty). -/
def disposeFlag (opts : Options) (rp : ResolvedParts) : Bool :=
  styleJoin rp != "" && !opts.extractCSS

/-- The isolated invocation scope around the compiled script, together
with the babel 6 default-export normalization line. -/
def scriptWrap (s : String) : String :=
  ";(function()\x7b\n" ++ s ++ "\n\x7d)()\n" ++
    "if (module.exports.__esModule) module.exports = module.exports.default\n"

/-- Script emission: a truthy script is wrapped, a `null` or empty script
leaves the output unchanged. -/
def scriptOut (out0 : String) (script : Option String) : String :=
  match script with
  | some s => if s = "" then out0 else out0 ++ scriptWrap s
  | none => out0

/-- The options-binding line, emitted unconditionally. -/
def optionsLine : String :=
  "var __vue__options__ = (typeof module.exports === \"function\"? module.exports.options: module.exports)\n"

/-- The development-only functional-component guard. -/
def functionalGuard : String :=
  "if (__vue__options__.functional) \x7bconsole.error(\"[vueify] functional components are not supported and should be defined in plain js files using render functions.\")\x7d\n"

/-- The render-function attachment lines. -/
def renderLines (t : TemplateObj) : String :=
  "__vue__options__.render = " ++ t.render ++ "\n" ++
    "__vue__options__.staticRenderFns = " ++ t.staticRenderFns ++ "\n"

/-- The scoped-CSS id attachment line. -/
def scopeIdLine (id : String) : String :=
  "__vue__options__._scopeId = \"" ++ id ++ "\"\n"

/-- `hotAPI.reload` line of the hot-reload update branch. -/
def reloadLine (id : String) : String :=
  "    hotAPI.reload(\"" ++ id ++ "\", __vue__options__)\n"

/-- `hotAPI.rerender` line of the hot-reload update branch. -/
def rerenderLine (id : String) : String :=
  "    hotAPI.rerender(\"" ++ id ++ "\", __vue__options__)\n"

/-- The update branch of the hot-reload block: a changed script forces a
full reload, otherwise a changed template forces a re-render, otherwise
nothing is emitted. -/
def updateAction (sc tc : Bool) (id : String) : String :=
  if sc then reloadLine id
  else if tc then rerenderLine id
  else ""

/-- The hot-reload block emitted when not production, not test and not
server mode. -/
def hotBlockStr (apiPath id : String) (sc tc dispose : Bool) : String :=
  "if (module.hot) \x7b(function () \x7b" ++
    "  var hotAPI = require(\"" ++ apiPath ++ "\")\n" ++
    "  hotAPI.install(require(\"vue\"), true)\n" ++
    "  if (!hotAPI.compatible) return\n" ++
    "  module.hot.accept()\n" ++
    (if dispose then "  module.hot.dispose(__vueify_style_dispose__)\n" else "") ++
    "  if (!module.hot.data) \x7b\n" ++
    "    hotAPI.createRecord(\"" ++ id ++ "\", __vue__options__)\n" ++
    "  \x7d else \x7b\n" ++
    updateAction sc tc id ++
    "  \x7d\n" ++
    "\x7d)()\x7d"

/-! ## The source-map builder. -/

/-- The source name: base name of the file plus the content-hash
disambiguator. -/
def hashedName (ctx : Ctx) (filePath content : String) : String :=
  ctx.basename filePath ++ "?" ++ ctx.hashSum (filePath ++ content)

/-- The mapping loop of `generateSourceMap`: one candidate mapping per
script line, resolved through the incoming consumer when one exists
(1:1 otherwise), skipped when the consumer yields no (or line 0, falsy)
original line. -/
def buildScriptMappings (consumer : Option InMap) (script : String)
    (generatedOffset : Nat) (hf : String) : List Mapping :=
  (List.range (jsSplitLines script).length).filterMap (fun index =>
    let ln := index + 1
    let originalLine : Option Nat :=
      match consumer with
      | some c => c ln
      | none => some ln
    match originalLine with
    | some ol => if ol = 0 then none else some ⟨hf, ln + generatedOffset, 0, ol, 0⟩
    | none => none)

/-- `generateSourceMap`.  The final `inMapConsumer.destroy()` runs
unconditionally, so when the script compiler supplied no incoming map the
consumer is `undefined` and the call raises a TypeError that rejects the
whole compilation. -/
def generateSourceMap (ctx : Ctx) (inMap : Option InMap)
    (content filePath script output : String) : Except JSErr SMap :=
  let hf := hashedName ctx filePath content
  let generatedOffset := (if output = "" then 0 else jsSplitLen output) + 1
  let mappings := buildScriptMappings inMap script generatedOffset hf
  match inMap with
  | some _ => .ok ⟨hf, content, mappings⟩
  | none => .error (.typeError "Cannot read properties of undefined (reading destroy)")

/-- `addTemplateMapping`: one mapping per output line of the
template-render region, every one pointing at the single document line on
which the template section starts. -/
def addTemplateMapping (content : String) (parts : ParsedComponent)
    (output : String) (m : SMap) (beforeLines : Nat) : SMap :=
  match parts.template with
  | none => m
  | some t =>
      let afterLines := jsSplitLen output
      let templateLine := jsSplitLen (strTake content t.start)
      { m with mappings := m.mappings ++
          (List.range (afterLines - beforeLines)).map (fun i =>
            ⟨m.hashedFilename, beforeLines + i, 0, templateLine, 0⟩) }

/-- The tail of the merge after script emission: options binding, template
attachment (with its development guard and optional line remapping),
scope-id attachment, hot-reload instrumentation and map embedding. -/
def mergeTail (env : Env) (ctx : Ctx) (id : String) (hasScoped : Bool)
    (rp : ResolvedParts) (content : String) (parts : ParsedComponent)
    (map0 : Option SMap) (out1 : String) (sc tc dispose : Bool) : String :=
  let out2 := out1 ++ optionsLine
  let step3 : String × Option SMap :=
    match rp.template with
    | none => (out2, map0)
    | some t =>
        let o :=
          if !env.isProduction && !env.isServer then out2 ++ functionalGuard
          else out2
        let beforeLines := jsSplitLen o
        let o2 := o ++ renderLines t
        match map0 with
        | some m => (o2, some (addTemplateMapping content parts o2 m beforeLines))
        | none => (o2, none)
  let out4 :=
    if hasScoped then step3.1 ++ scopeIdLine id else step3.1
  let out5 :=
    if !env.isProduction && !env.isTest && !env.isServer then
      out4 ++ hotBlockStr ctx.hotReloadAPIPath id sc tc dispose
    else out4
  match step3.2 with
  | some m => out5 ++ "\n" ++ ctx.mapToComment m
  | none => out5

/-- `mergeParts`: style assembly and notification, optional source map
(computed only for a truthy script, and rejecting the run when the
builder throws), script wrapping, then the merge tail. -/
def mergeParts (env : Env) (opts : Options) (ctx : Ctx) (id : String)
    (hasScoped : Bool) (rp : ResolvedParts) (prev : Option ResolvedParts)
    (content : String) (parts : ParsedComponent) (filePath : String) :
    List Event × Except JSErr String :=
  let sc := scriptChanged rp.script prev
  let tc := templateChanged rp.template prev
  let evs := styleEvts env rp filePath
  let out0 := styleOut env opts ctx rp
  if opts.sourceMap && jsTruthy rp.script then
    match generateSourceMap ctx rp.map content filePath (rp.script.getD "") out0 with
    | .error e => (evs, .error e)
    | .ok m =>
        (evs, .ok (mergeTail env ctx id hasScoped rp content parts (some m)
          (scriptOut out0 rp.script) sc tc (disposeFlag opts rp)))
  else
    (evs, .ok (mergeTail env ctx id hasScoped rp content parts none
      (scriptOut out0 rp.script) sc tc (disposeFlag opts rp)))

/-- One `compiler.compile` call: scope-id generation, parsing, the three
part compilers behind the join barrier, then the merge.  A failing part
short-circuits before the merge and leaves the cache untouched; a run
that reaches the merge overwrites the cache entry for this scope id first
(even when the merge itself later fails). -/
def compileOnce (ctx : Ctx) (env : Env) (opts : Options)
    (content filePath : String) (st : CState) : RunOut :=
  match processAllParts ctx (ctx.parseComponent content) filePath
      (scopeId ctx filePath) with
  | (.error e, evs) => ⟨.error e, evs, st⟩
  | (.ok pre, evs) =>
      let id := scopeId ctx filePath
      let rp := materialize pre st.nextRef
      let mr := mergeParts env opts ctx id
        ((ctx.parseComponent content).styles.any (fun s => s.scopedFlag)) rp
        (cacheLookup st.cache id) content (ctx.parseComponent content) filePath
      ⟨mr.2, evs ++ mr.1, ⟨cacheInsert st.cache id rp, st.nextRef + 1⟩⟩

/-! ## Concrete instantiations of the external collaborators, used to
evaluate the model on closed inputs. -/

/-- A minimal collaborator set: empty registry, no babel, deterministic
fingerprints, an empty filesystem, an empty document parse. -/
def plainCtx : Ctx where
  parseComponent := fun _ => ⟨none, none, []⟩
  genId := fun fp => fp
  compilers := fun _ => none
  compileTemplate := fun v =>
    match v with
    | .str s => ("function (h) \x7breturn h(" ++ s ++ ")\x7d", "[]")
    | _ => ("null", "[]")
  rewriteStyle := fun _ s _ => s
  hashSum := fun _ => "h1"
  basename := fun s => s
  resolvePath := fun _ src => "/dir/" ++ src
  jsonStringify := fun s => "\"" ++ s ++ "\""
  mapToComment := fun m => "//# sourceMappingURL=" ++ m.hashedFilename
  fs := fun _ => none
  hasBabel := false
  hotReloadAPIPath := "vue-hot-reload-api"
  insertCSSPath := "vueify/lib/insert-css"

/-- Development environment: hot reload applies. -/
def devEnv : Env := ⟨false, false, false⟩

/-- Production environment. -/
def prodEnv : Env := ⟨true, false, false⟩

/-- Default options: no CSS extraction, no source maps. -/
def defOpts : Options := ⟨false, false⟩

/-- Options with source maps enabled. -/
def mapOpts : Options := ⟨false, true⟩

/-- Fresh process state. -/
def emptyState : CState := ⟨[], 0⟩

/-- An identity incoming-map consumer (every generated line resolves to
the same original line). -/
def idConsumer : InMap := fun ln => some ln

/-- A document holding only a template part. -/
def c1ctx : Ctx :=
  { plainCtx with parseComponent := fun _ => ⟨some ⟨"<div/>", none, none, false, 0⟩, none, []⟩ }

/-- A document holding one style part that references a missing external
file. -/
def c2ctx : Ctx :=
  { plainCtx with parseComponent := fun _ => ⟨none, none, [⟨"", none, some "missing.css", false, 0⟩]⟩ }

/-- A document holding only a script part (identity-compiled). -/
def c3ctx : Ctx :=
  { plainCtx with parseComponent := fun _ => ⟨none, some ⟨"var a = 1", none, none, false, 0⟩, []⟩ }

/-- A script-plus-style document whose script compiler returns a
`{code, map}` pair carrying an identity incoming map. -/
def c5ctx : Ctx :=
  { plainCtx with
    parseComponent := fun _ =>
      ⟨none, some ⟨"var a = 1", some "js", none, false, 10⟩, [⟨"css", none, none, false, 0⟩]⟩
    compilers := fun l =>
      if l = some "js" then
        some (fun _v _fp => .ok (.codeMap "var a = 1" (some idConsumer)))
      else none }

/-- A parser that turns the whole document into the script part, so two
different documents resolve to two different scripts. -/
def c6ctx : Ctx :=
  { plainCtx with parseComponent := fun c => ⟨none, some ⟨c, none, none, false, 0⟩, []⟩ }

/-- A document holding one scoped style part. -/
def c7ctx : Ctx :=
  { plainCtx with parseComponent := fun _ => ⟨none, none, [⟨"p color red", none, none, true, 0⟩]⟩ }

/-- A registry whose `bad` entry always rejects. -/
def c8ctx : Ctx :=
  { plainCtx with
    parseComponent := fun _ => ⟨none, some ⟨"x", some "bad", none, false, 0⟩, []⟩
    compilers := fun l =>
      if l = some "bad" then some (fun _ _ => .error (.compileFailed "boom")) else none }

/-- Babel available, and a `babel` registry entry that tags its output. -/
def c10ctx : Ctx :=
  { plainCtx with
    hasBabel := true
    compilers := fun l =>
      if l = some "babel" then
        some (fun v _ =>
          match v with
          | .str s => .ok (.str ("B:" ++ s))
          | _ => .error (.compileFailed "bad input"))
      else none }

/-! ## Helper lemmas. -/

theorem leadsWith_nil (l : List Char) : leadsWith l [] = true := by
  cases l <;> rfl

theorem leadsWith_refl (l : List Char) : leadsWith l l = true := by
  induction l with
  | nil => rfl
  | cons c cs ih => simp [leadsWith, ih]

theorem leadsWith_append (l m p : List Char) (h : leadsWith l p = true) :
    leadsWith (l ++ m) p = true := by
  induction l generalizing p with
  | nil =>
      cases p with
      | nil => exact leadsWith_nil m
      | cons d ds => simp [leadsWith] at h
  | cons c cs ih =>
      cases p with
      | nil => exact leadsWith_nil _
      | cons d ds =>
          simp only [leadsWith, Bool.and_eq_true] at h
          simp only [List.cons_append, leadsWith, Bool.and_eq_true]
          exact ⟨h.1, ih ds h.2⟩

theorem leadsWith_self_append (p r : List Char) : leadsWith (p ++ r) p = true := by
  induction p with
  | nil => exact leadsWith_nil r
  | cons c cs ih => simp [leadsWith, ih]

theorem hasSubAux_nil (l : List Char) : hasSubAux l [] = true := by
  cases l with
  | nil => rfl
  | cons c cs => simp [hasSubAux, leadsWith_nil]

theorem hasSubAux_of_leads (l p : List Char) (h : leadsWith l p = true) :
    hasSubAux l p = true := by
  cases l with
  | nil =>
      cases p with
      | nil => rfl
      | cons d ds => simp [leadsWith] at h
  | cons c cs => simp [hasSubAux, h]

theorem hasSubAux_append_right (a b p : List Char) (h : hasSubAux b p = true) :
    hasSubAux (a ++ b) p = true := by
  induction a with
  | nil => simpa using h
  | cons c cs ih => simp [hasSubAux, ih]

theorem hasSubAux_append_left (a b p : List Char) (h : hasSubAux a p = true) :
    hasSubAux (a ++ b) p = true := by
  induction a with
  | nil =>
      simp only [hasSubAux, List.isEmpty_iff] at h
      subst h
      simpa using hasSubAux_nil b
  | cons c cs ih =>
      simp only [hasSubAux, Bool.or_eq_true] at h
      rcases h with h | h
      · have := leadsWith_append (c :: cs) b p h
        simp only [hasSubAux, Bool.or_eq_true]
        exact Or.inl (by simpa using this)
      · simp [hasSubAux, ih h]

theorem strToList_append (a b : String) : (a ++ b).toList = a.toList ++ b.toList := by
  cases a
  cases b
  rfl

theorem strHasSub_append_right (a b p : String) (h : strHasSub b p = true) :
    strHasSub (a ++ b) p = true := by
  unfold strHasSub at h ⊢
  rw [strToList_append]
  exact hasSubAux_append_right _ _ _ h

theorem strHasSub_append_left (a b p : String) (h : strHasSub a p = true) :
    strHasSub (a ++ b) p = true := by
  unfold strHasSub at h ⊢
  rw [strToList_append]
  exact hasSubAux_append_left _ _ _ h

theorem strHasSub_self (p : String) : strHasSub p p = true :=
  hasSubAux_of_leads _ _ (leadsWith_refl _)

theorem strHasSub_self_append (p r : String) : strHasSub (p ++ r) p = true := by
  unfold strHasSub
  rw [strToList_append]
  exact hasSubAux_of_leads _ _ (leadsWith_self_append _ _)

theorem jsStrictNeqScript_self (o : Option String) : jsStrictNeqScript o o = false := by
  cases o <;> simp [jsStrictNeqScript]

/-- The hot-reload block always contains the text of its update branch. -/
theorem strHasSub_hotBlock (api id : String) (sc tc d : Bool) :
    strHasSub (hotBlockStr api id sc tc d) (updateAction sc tc id) = true := by
  unfold hotBlockStr
  apply strHasSub_append_left
  apply strHasSub_append_left
  apply strHasSub_append_right
  exact strHasSub_self _

/-- `mergeTail` with no source map, written as one expression. -/
theorem mergeTail_none_eq (env : Env) (ctx : Ctx) (id : String) (hs : Bool)
    (rp : ResolvedParts) (content : String) (parts : ParsedComponent)
    (out1 : String) (sc tc d : Bool) :
    mergeTail env ctx id hs rp content parts none out1 sc tc d =
      (let out3 :=
        match rp.template with
        | none => out1 ++ optionsLine
        | some t =>
            (if !env.isProduction && !env.isServer then
              out1 ++ optionsLine ++ functionalGuard
            else out1 ++ optionsLine) ++ renderLines t
       let out4 := if hs then out3 ++ scopeIdLine id else out3
       if !env.isProduction && !env.isTest && !env.isServer then
         out4 ++ hotBlockStr ctx.hotReloadAPIPath id sc tc d
       else out4) := by
  unfold mergeTail
  cases rp.template <;> simp

/-- In a development client build, the merged output contains the
hot-reload update branch decided by the cache diff. -/
theorem mergeTail_hot_sub (env : Env) (ctx : Ctx) (id : String) (hs : Bool)
    (rp : ResolvedParts) (content : String) (parts : ParsedComponent)
    (out1 : String) (sc tc d : Bool)
    (h1 : env.isProduction = false) (h2 : env.isTest = false)
    (h3 : env.isServer = false) :
    strHasSub (mergeTail env ctx id hs rp content parts none out1 sc tc d)
      (updateAction sc tc id) = true := by
  rw [mergeTail_none_eq]
  simp only [h1, h2, h3, Bool.not_false, Bool.and_self, if_true]
  apply strHasSub_append_right
  exact strHasSub_hotBlock _ _ _ _ _

/-- When a scoped style is present, the merged output contains the
scope-id attachment line. -/
theorem mergeTail_scope_sub (env : Env) (ctx : Ctx) (id : String)
    (rp : ResolvedParts) (content : String) (parts : ParsedComponent)
    (out1 : String) (sc tc d : Bool) :
    strHasSub (mergeTail env ctx id true rp content parts none out1 sc tc d)
      (scopeIdLine id) = true := by
  rw [mergeTail_none_eq]
  simp only [if_true]
  cases hc : (!env.isProduction && !env.isTest && !env.isServer) with
  | false =>
      simp only [Bool.false_eq_true, if_false]
      apply strHasSub_append_right
      exact strHasSub_self _
  | true =>
      simp only [if_true]
      apply strHasSub_append_left
      apply strHasSub_append_right
      exact strHasSub_self _

/-- A run whose parts all resolve stores the materialized parts in the
cache and hands them with the previous entry to the merge. -/
theorem compileOnce_resolved (ctx : Ctx) (env : Env) (opts : Options)
    (content filePath : String) (st : CState) (pre : PreResolved)
    (evs : List Event)
    (h : processAllParts ctx (ctx.parseComponent content) filePath
        (scopeId ctx filePath) = (.ok pre, evs)) :
    compileOnce ctx env opts content filePath st =
      ⟨(mergeParts env opts ctx (scopeId ctx filePath)
          ((ctx.parseComponent content).styles.any (fun s => s.scopedFlag))
          (materialize pre st.nextRef)
          (cacheLookup st.cache (scopeId ctx filePath)) content
          (ctx.parseComponent content) filePath).2,
        evs ++ (mergeParts env opts ctx (scopeId ctx filePath)
          ((ctx.parseComponent content).styles.any (fun s => s.scopedFlag))
          (materialize pre st.nextRef)
          (cacheLookup st.cache (scopeId ctx filePath)) content
          (ctx.parseComponent content) filePath).1,
        ⟨cacheInsert st.cache (scopeId ctx filePath) (materialize pre st.nextRef),
          st.nextRef + 1⟩⟩ := by
  unfold compileOnce
  rw [h]

theorem strAppend_left_empty (s : String) : "" ++ s = s := by
  cases s
  rfl

theorem strAppend_right_empty (s : String) : s ++ "" = s := by
  cases s with
  | mk l => exact congrArg String.mk (List.append_nil l)

/-- With source maps off, the merge always succeeds and produces the
no-map merge tail. -/
theorem mergeParts_noMap (env : Env) (opts : Options) (ctx : Ctx) (id : String)
    (hs : Bool) (rp : ResolvedParts) (prev : Option ResolvedParts)
    (content : String) (parts : ParsedComponent) (fp : String)
    (h : opts.sourceMap = false) :
    mergeParts env opts ctx id hs rp prev content parts fp =
      (styleEvts env rp fp,
        .ok (mergeTail env ctx id hs rp content parts none
          (scriptOut (styleOut env opts ctx rp) rp.script)
          (scriptChanged rp.script prev) (templateChanged rp.template prev)
          (disposeFlag opts rp))) := by
  simp [mergeParts, h]

/-! ## Claim theorems. -/

/-- C9: a part whose language tag has no entry in the Compiler Registry is
compiled by the identity transform: the result handed to post-processing
is the resolved source unchanged and no error is raised. -/
theorem c9_no_registry_identity (ctx : Ctx) (ty : String) (source : JSVal)
    (lang : Option String) (filePath : String)
    (h : ctx.compilers lang = none) :
    compileAsPromise ctx ty source lang filePath = .ok source := by
  unfold compileAsPromise
  rw [h]

/-- Witness for C9 at a concrete language tag absent from the registry. -/
theorem c9_no_registry_identity_witness :
    plainCtx.compilers (some "weird") = none ∧
    compileAsPromise plainCtx "style" (.str "body") (some "weird") "/f.vue"
      = .ok (.str "body") :=
  ⟨rfl, c9_no_registry_identity plainCtx "style" (.str "body") (some "weird")
    "/f.vue" rfl⟩

/-- C10: an untagged script is compiled through the `babel` registry entry
when babel-core is importable; the identity pass-through for untagged
scripts happens only when babel is unavailable (and the registry has no
entry under the null language). -/
theorem c10_untagged_script_babel (ctx : Ctx) (p : SFCBlock) (v : JSVal)
    (filePath : String) (f : CompilerFn)
    (hb : ctx.hasBabel = true) (hl : p.lang = none)
    (hf : ctx.compilers (some "babel") = some f) :
    compileScriptPart ctx (some (p, v)) filePath = (f v filePath).bind postScript
    ∧ ∀ ctx2 : Ctx, ctx2.hasBabel = false → ctx2.compilers none = none →
        compileScriptPart ctx2 (some (p, v)) filePath = postScript v := by
  constructor
  · simp only [compileScriptPart]
    rw [hl]
    simp [langOr, hb, compileAsPromise, hf]
  · intro ctx2 h2 h3
    simp only [compileScriptPart]
    rw [hl]
    simp only [langOr, h2, Bool.false_eq_true, if_false, compileAsPromise, h3]
    rfl

/-- Witness for C10: with babel available the tagged transform runs; with
babel unavailable the same untagged script passes through unchanged. -/
theorem c10_untagged_script_babel_witness :
    c10ctx.hasBabel = true ∧
    compileScriptPart c10ctx (some (⟨"var a", none, none, false, 0⟩, .str "var a"))
        "/f.vue" = .ok (some "B:var a", none) ∧
    compileScriptPart plainCtx (some (⟨"var a", none, none, false, 0⟩, .str "var a"))
        "/f.vue" = .ok (some "var a", none) := by
  have h := c10_untagged_script_babel c10ctx ⟨"var a", none, none, false, 0⟩
    (.str "var a") "/f.vue"
    (fun v _ =>
      match v with
      | .str s => .ok (.str ("B:" ++ s))
      | _ => .error (.compileFailed "bad input"))
    rfl rfl rfl
  refine ⟨rfl, ?_, ?_⟩
  · rw [h.1]
    rfl
  · rw [h.2 plainCtx rfl rfl]
    rfl

/-- C8: when any single part compilation fails, the merge never runs, no
output text is produced, the cache is left untouched, and the failing
error is the callback error. -/
theorem c8_part_failure_aborts (ctx : Ctx) (env : Env) (opts : Options)
    (content filePath : String) (st : CState) (e : JSErr) (evs : List Event)
    (h : processAllParts ctx (ctx.parseComponent content) filePath
        (scopeId ctx filePath) = (.error e, evs)) :
    compileOnce ctx env opts content filePath st = ⟨.error e, evs, st⟩ := by
  unfold compileOnce
  rw [h]

/-- Witness for C8 at a concrete document whose script compiler rejects. -/
theorem c8_part_failure_aborts_witness :
    processAllParts c8ctx (c8ctx.parseComponent "doc") "/f.vue"
        (scopeId c8ctx "/f.vue") = (.error (.compileFailed "boom"), [])
    ∧ compileOnce c8ctx devEnv defOpts "doc" "/f.vue" emptyState
        = ⟨.error (.compileFailed "boom"), [], emptyState⟩ :=
  ⟨rfl, c8_part_failure_aborts c8ctx devEnv defOpts "doc" "/f.vue" emptyState
    (.compileFailed "boom") [] rfl⟩

/-- C4 (code bug): with source maps on and a script part whose compiler
supplied no incoming map, `generateSourceMap` raises the TypeError of
calling `destroy` on an undefined consumer, rejecting the whole compile —
even though the mapping loop itself had produced the intended 1:1 lines
(second conjunct). -/
theorem c4_destroy_typeerror :
    generateSourceMap plainCtx none "doc" "/f.vue" "var a = 1" ""
        = .error (.typeError "Cannot read properties of undefined (reading destroy)")
    ∧ buildScriptMappings none "var a = 1" 1 (hashedName plainCtx "/f.vue" "doc")
        = [⟨hashedName plainCtx "/f.vue" "doc", 2, 0, 1, 0⟩]
    ∧ (compileOnce c3ctx devEnv mapOpts "doc" "/f.vue" emptyState).result
        = .error (.typeError "Cannot read properties of undefined (reading destroy)") :=
  ⟨rfl, rfl, rfl⟩

/-- C2 counterexample: a document whose only style part references a
missing external file emits the `dependency` notification with the
resolved path, but the compilation then fails with a TypeError (trimming
the undefined content) instead of completing successfully. -/
theorem c2_counterexample :
    (compileOnce c2ctx devEnv defOpts "doc" "/f.vue" emptyState).result
        = .error (.typeError "Cannot read properties of undefined (reading trim)")
    ∧ (compileOnce c2ctx devEnv defOpts "doc" "/f.vue" emptyState).events
        = [.dependency "/dir/missing.css"] :=
  ⟨rfl, rfl⟩

/-- C2 (amended): for a part referencing a missing external file, the
`dependency` notification with the resolved path is emitted regardless of
the read outcome, but the content resolves to `undefined` (not the empty
string), and a style part built on it rejects with a TypeError when no
compiler is registered for its language — the compilation fails rather
than completing with empty content. -/
theorem c2_missing_src (ctx : Ctx) (p : SFCBlock) (filePath src id : String)
    (hsrc : p.src = some src) (hne : ¬ src = "")
    (hfs : ctx.fs (ctx.resolvePath filePath src) = none)
    (hlang : ctx.compilers p.lang = none) :
    getContent ctx p filePath
        = (.undefined, [.dependency (ctx.resolvePath filePath src)])
    ∧ compileStylePart ctx p .undefined id filePath
        = .error (.typeError "Cannot read properties of undefined (reading trim)") := by
  constructor
  · simp only [getContent]
    rw [hsrc]
    simp [hne, hfs]
  · simp only [compileStylePart, compileAsPromise]
    rw [hlang]
    rfl

/-- Witness for C2 (amended) at the concrete missing-file document. -/
theorem c2_missing_src_witness :
    (⟨"", none, some "missing.css", false, 0⟩ : SFCBlock).src = some "missing.css"
    ∧ getContent c2ctx ⟨"", none, some "missing.css", false, 0⟩ "/f.vue"
        = (.undefined, [.dependency "/dir/missing.css"])
    ∧ compileStylePart c2ctx ⟨"", none, some "missing.css", false, 0⟩ .undefined
        "data-v-/f.vue" "/f.vue"
        = .error (.typeError "Cannot read properties of undefined (reading trim)") := by
  have h := c2_missing_src c2ctx ⟨"", none, some "missing.css", false, 0⟩ "/f.vue"
    "missing.css" "data-v-/f.vue" rfl (by decide) rfl rfl
  exact ⟨rfl, h.1, h.2⟩

set_option maxRecDepth 100000 in
/-- C3 counterexample: in a development client environment, the output for
a script-only document contains the hot-reload block, so it does not equal
the wrapped script plus the options-binding line alone. -/
theorem c3_counterexample :
    resultHasSub (compileOnce c3ctx devEnv defOpts "doc" "/f.vue" emptyState).result
        "if (module.hot)" = true
    ∧ resultIsOkStr (compileOnce c3ctx devEnv defOpts "doc" "/f.vue" emptyState).result
        (scriptWrap "var a = 1" ++ optionsLine) = false := by
  exact ⟨by decide, by decide⟩

/-- C3 (amended): a script-only document compiles, with source maps off,
to exactly the wrapped script plus the options-binding line, with no style
injection, no style notification and no template attachment; the
hot-reload block is appended exactly when not production, not test and
not server. -/
theorem c3_script_only_output (ctx : Ctx) (env : Env) (opts : Options)
    (content filePath : String) (st : CState) (b : SFCBlock) (v : JSVal)
    (evScr : List Event) (s : String) (m : Option InMap)
    (hparse : ctx.parseComponent content = ⟨none, some b, []⟩)
    (hget : getContent ctx b filePath = (v, evScr))
    (hcomp : compileScriptPart ctx (some (b, v)) filePath = .ok (some s, m))
    (hs : ¬ s = "")
    (hmap : opts.sourceMap = false) :
    compileOnce ctx env opts content filePath st =
      ⟨.ok (if !env.isProduction && !env.isTest && !env.isServer then
              scriptWrap s ++ optionsLine ++
                hotBlockStr ctx.hotReloadAPIPath (scopeId ctx filePath)
                  (scriptChanged (some s) (cacheLookup st.cache (scopeId ctx filePath)))
                  (templateChanged none (cacheLookup st.cache (scopeId ctx filePath)))
                  false
            else scriptWrap s ++ optionsLine),
        evScr,
        ⟨cacheInsert st.cache (scopeId ctx filePath) ⟨none, some s, m, []⟩,
          st.nextRef + 1⟩⟩ := by
  have hp : processAllParts ctx (ctx.parseComponent content) filePath
      (scopeId ctx filePath) = (.ok ⟨none, some s, m, []⟩, evScr) := by
    rw [hparse]
    simp only [processAllParts, Option.map_some', Option.map_none', List.map_nil,
      hget, hcomp, compileTemplatePart, compileStyleParts]
    simp
    rfl
  rw [compileOnce_resolved ctx env opts content filePath st ⟨none, some s, m, []⟩ evScr hp]
  rw [hparse]
  rw [mergeParts_noMap env opts ctx (scopeId ctx filePath) _ _ _ content _ filePath hmap]
  simp only [materialize, Option.map_none, List.any_nil]
  rw [mergeTail_none_eq]
  simp only [styleEvts, styleActive, styleJoin, String.intercalate,
    styleOut, disposeFlag, scriptOut]
  simp [hs, strAppend_left_empty]

/-- Witness for C3 (amended): in production the script-only document
compiles to exactly the wrapped script plus the options-binding line. -/
theorem c3_script_only_output_witness :
    compileOnce c3ctx prodEnv defOpts "doc" "/f.vue" emptyState =
      ⟨.ok (scriptWrap "var a = 1" ++ optionsLine), [],
        ⟨cacheInsert [] "data-v-/f.vue" ⟨none, some "var a = 1", none, []⟩, 1⟩⟩ :=
  c3_script_only_output c3ctx prodEnv defOpts "doc" "/f.vue" emptyState
    ⟨"var a = 1", none, none, false, 0⟩ (.str "var a = 1") [] "var a = 1" none
    rfl rfl rfl (by decide) rfl

set_option maxRecDepth 100000 in
/-- C1 counterexample: a document holding a template part, compiled twice
with identical content and path in a development client environment, gets
a `hotAPI.rerender` update action in the second output — not the empty
update branch the claim asserts. -/
theorem c1_counterexample :
    resultHasSub (compileOnce c1ctx devEnv defOpts "doc" "/f.vue"
        (compileOnce c1ctx devEnv defOpts "doc" "/f.vue" emptyState).state).result
      "hotAPI.rerender(" = true := by
  decide

/-- C1 (amended): recompiling identical content leaves the script diff
clean (string comparison), but the template slot holds a freshly allocated
render-function object each run, and the cache diff compares it by
JavaScript reference identity; so the second compile emits no update
action precisely when the document has no template part, and emits a
re-render (never a reload) when a template part is present. -/
theorem c1_second_compile_update (ctx : Ctx) (env : Env) (opts : Options)
    (content filePath : String) (st : CState) (pre : PreResolved)
    (evs : List Event)
    (h1 : env.isProduction = false) (h2 : env.isTest = false)
    (h3 : env.isServer = false) (hmap : opts.sourceMap = false)
    (hres : processAllParts ctx (ctx.parseComponent content) filePath
        (scopeId ctx filePath) = (.ok pre, evs)) :
    cacheLookup (compileOnce ctx env opts content filePath st).state.cache
        (scopeId ctx filePath) = some (materialize pre st.nextRef)
    ∧ scriptChanged (materialize pre (st.nextRef + 1)).script
        (some (materialize pre st.nextRef)) = false
    ∧ templateChanged (materialize pre (st.nextRef + 1)).template
        (some (materialize pre st.nextRef)) = pre.template.isSome
    ∧ updateAction
        (scriptChanged (materialize pre (st.nextRef + 1)).script
          (some (materialize pre st.nextRef)))
        (templateChanged (materialize pre (st.nextRef + 1)).template
          (some (materialize pre st.nextRef)))
        (scopeId ctx filePath)
        = (if pre.template.isSome then rerenderLine (scopeId ctx filePath) else "")
    ∧ (pre.template.isSome = true →
        resultHasSub
          (compileOnce ctx env opts content filePath
            (compileOnce ctx env opts content filePath st).state).result
          (rerenderLine (scopeId ctx filePath)) = true) := by
  have hsc : scriptChanged (materialize pre (st.nextRef + 1)).script
      (some (materialize pre st.nextRef)) = false := by
    simp [materialize, scriptChanged, jsStrictNeqScript_self]
  have htc : templateChanged (materialize pre (st.nextRef + 1)).template
      (some (materialize pre st.nextRef)) = pre.template.isSome := by
    cases hpt : pre.template with
    | none => simp [materialize, templateChanged, jsStrictNeqTemplate, hpt]
    | some rs =>
        simp [materialize, templateChanged, jsStrictNeqTemplate, hpt]
  have hcache : cacheLookup (compileOnce ctx env opts content filePath st).state.cache
      (scopeId ctx filePath) = some (materialize pre st.nextRef) := by
    rw [compileOnce_resolved ctx env opts content filePath st pre evs hres]
    simp [cacheInsert, cacheLookup]
  refine ⟨hcache, hsc, htc, ?_, ?_⟩
  · rw [hsc, htc]
    simp [updateAction]
  · intro ht
    rw [compileOnce_resolved ctx env opts content filePath st pre evs hres]
    rw [compileOnce_resolved ctx env opts content filePath
      ⟨cacheInsert st.cache (scopeId ctx filePath) (materialize pre st.nextRef),
        st.nextRef + 1⟩ pre evs hres]
    simp only [mergeParts_noMap _ _ _ _ _ _ _ _ _ _ hmap]
    simp only [resultHasSub, cacheInsert, cacheLookup, if_pos]
    rw [hsc, htc, ht]
    have hupd : rerenderLine (scopeId ctx filePath)
        = updateAction false true (scopeId ctx filePath) := rfl
    rw [hupd]
    exact mergeTail_hot_sub _ _ _ _ _ _ _ _ _ _ _ h1 h2 h3

/-- Witness for C1 (amended): the second identical compile of the concrete
template document contains the re-render call. -/
theorem c1_second_compile_update_witness :
    resultHasSub (compileOnce c1ctx devEnv defOpts "doc" "/f.vue"
        (compileOnce c1ctx devEnv defOpts "doc" "/f.vue" emptyState).state).result
      (rerenderLine "data-v-/f.vue") = true := by
  have h := c1_second_compile_update c1ctx devEnv defOpts "doc" "/f.vue" emptyState
    ⟨some ("function (h) \x7breturn h(<div/>)\x7d", "[]"), none, none, []⟩ []
    rfl rfl rfl rfl rfl
  exact h.2.2.2.2 rfl

/-- C6: when the resolved script text differs between two consecutive
compilations of the same file, the second compile emits a full reload
(never a re-render), whatever the template diff says. -/
theorem c6_script_change_reload (ctx : Ctx) (env : Env) (opts : Options)
    (content1 content2 filePath : String) (st : CState)
    (pre1 pre2 : PreResolved) (evs1 evs2 : List Event) (s1 s2 : String)
    (h1 : env.isProduction = false) (h2 : env.isTest = false)
    (h3 : env.isServer = false) (hmap : opts.sourceMap = false)
    (hres1 : processAllParts ctx (ctx.parseComponent content1) filePath
        (scopeId ctx filePath) = (.ok pre1, evs1))
    (hres2 : processAllParts ctx (ctx.parseComponent content2) filePath
        (scopeId ctx filePath) = (.ok pre2, evs2))
    (hs1 : pre1.script = some s1) (hs2 : pre2.script = some s2)
    (hne : ¬ s2 = s1) :
    scriptChanged (materialize pre2 (st.nextRef + 1)).script
        (some (materialize pre1 st.nextRef)) = true
    ∧ updateAction true
        (templateChanged (materialize pre2 (st.nextRef + 1)).template
          (some (materialize pre1 st.nextRef)))
        (scopeId ctx filePath) = reloadLine (scopeId ctx filePath)
    ∧ resultHasSub
        (compileOnce ctx env opts content2 filePath
          (compileOnce ctx env opts content1 filePath st).state).result
        (reloadLine (scopeId ctx filePath)) = true := by
  have hsc : scriptChanged (materialize pre2 (st.nextRef + 1)).script
      (some (materialize pre1 st.nextRef)) = true := by
    simp [materialize, scriptChanged, jsStrictNeqScript, hs1, hs2, hne]
  refine ⟨hsc, rfl, ?_⟩
  rw [compileOnce_resolved ctx env opts content1 filePath st pre1 evs1 hres1]
  rw [compileOnce_resolved ctx env opts content2 filePath
    ⟨cacheInsert st.cache (scopeId ctx filePath) (materialize pre1 st.nextRef),
      st.nextRef + 1⟩ pre2 evs2 hres2]
  simp only [mergeParts_noMap _ _ _ _ _ _ _ _ _ _ hmap]
  simp only [resultHasSub, cacheInsert, cacheLookup, if_pos]
  rw [hsc]
  have hupd : reloadLine (scopeId ctx filePath)
      = updateAction true
          (templateChanged (materialize pre2 (st.nextRef + 1)).template
            (some (materialize pre1 st.nextRef)))
          (scopeId ctx filePath) := rfl
  rw [hupd]
  exact mergeTail_hot_sub _ _ _ _ _ _ _ _ _ _ _ h1 h2 h3

/-- Witness for C6 at two concrete documents with different scripts. -/
theorem c6_script_change_reload_witness :
    resultHasSub (compileOnce c6ctx devEnv defOpts "b" "/f.vue"
        (compileOnce c6ctx devEnv defOpts "a" "/f.vue" emptyState).state).result
      (reloadLine "data-v-/f.vue") = true := by
  have h := c6_script_change_reload c6ctx devEnv defOpts "a" "b" "/f.vue" emptyState
    ⟨none, some "a", none, []⟩ ⟨none, some "b", none, []⟩ [] [] "a" "b"
    rfl rfl rfl rfl rfl rfl rfl rfl (by decide)
  exact h.2.2

/-- C7: a document with a scoped style part gets the scope-id attachment
line in its output, with the same ScopeId on every compilation of the same
file path (the id depends on the path alone, not on the content or on the
compile count). -/
theorem c7_scoped_id_line (ctx : Ctx) (env : Env) (opts : Options)
    (content1 content2 filePath : String) (st : CState)
    (pre1 pre2 : PreResolved) (evs1 evs2 : List Event)
    (hmap : opts.sourceMap = false)
    (hsc1 : (ctx.parseComponent content1).styles.any (fun s => s.scopedFlag) = true)
    (hsc2 : (ctx.parseComponent content2).styles.any (fun s => s.scopedFlag) = true)
    (hres1 : processAllParts ctx (ctx.parseComponent content1) filePath
        (scopeId ctx filePath) = (.ok pre1, evs1))
    (hres2 : processAllParts ctx (ctx.parseComponent content2) filePath
        (scopeId ctx filePath) = (.ok pre2, evs2)) :
    resultHasSub (compileOnce ctx env opts content1 filePath st).result
        (scopeIdLine (scopeId ctx filePath)) = true
    ∧ resultHasSub
        (compileOnce ctx env opts content2 filePath
          (compileOnce ctx env opts content1 filePath st).state).result
        (scopeIdLine (scopeId ctx filePath)) = true := by
  constructor
  · rw [compileOnce_resolved ctx env opts content1 filePath st pre1 evs1 hres1]
    rw [hsc1]
    simp only [mergeParts_noMap _ _ _ _ _ _ _ _ _ _ hmap]
    simp only [resultHasSub]
    exact mergeTail_scope_sub _ _ _ _ _ _ _ _ _ _
  · rw [compileOnce_resolved ctx env opts content1 filePath st pre1 evs1 hres1]
    rw [compileOnce_resolved ctx env opts content2 filePath
      ⟨cacheInsert st.cache (scopeId ctx filePath) (materialize pre1 st.nextRef),
        st.nextRef + 1⟩ pre2 evs2 hres2]
    rw [hsc2]
    simp only [mergeParts_noMap _ _ _ _ _ _ _ _ _ _ hmap]
    simp only [resultHasSub]
    exact mergeTail_scope_sub _ _ _ _ _ _ _ _ _ _

/-- Witness for C7: two compilations of the scoped-style document carry
the same scope-id line. -/
theorem c7_scoped_id_line_witness :
    resultHasSub (compileOnce c7ctx devEnv defOpts "doc1" "/f.vue" emptyState).result
        (scopeIdLine "data-v-/f.vue") = true
    ∧ resultHasSub (compileOnce c7ctx devEnv defOpts "doc2" "/f.vue"
          (compileOnce c7ctx devEnv defOpts "doc1" "/f.vue" emptyState).state).result
        (scopeIdLine "data-v-/f.vue") = true :=
  c7_scoped_id_line c7ctx devEnv defOpts "doc1" "doc2" "/f.vue" emptyState
    ⟨none, none, none, ["p color red"]⟩ ⟨none, none, none, ["p color red"]⟩ [] []
    rfl rfl rfl rfl rfl

/-- Through an identity incoming consumer the mapping loop keeps every
script line, with the generated line shifted by the offset. -/
theorem buildScriptMappings_id (script : String) (off : Nat) (hf : String) :
    buildScriptMappings (some idConsumer) script off hf
      = (List.range (jsSplitLines script).length).map
          (fun i => ⟨hf, i + 1 + off, 0, i + 1, 0⟩) := by
  have h : buildScriptMappings (some idConsumer) script off hf
      = (List.range (jsSplitLines script).length).filterMap
          (fun i => some (⟨hf, i + 1 + off, 0, i + 1, 0⟩ : Mapping)) := rfl
  rw [h]
  exact congrFun (List.filterMap_eq_map fun i => (⟨hf, i + 1 + off, 0, i + 1, 0⟩ : Mapping)) _

set_option maxRecDepth 100000 in
/-- C5 counterexample: with one inline style line preceding the script,
the script mapping for script line 1 carries generated line 4, while the
compiled output places that script line at output line 3 (two lines
precede it), so the generated line is not the script line plus the number
of preceding output lines. -/
theorem c5_counterexample :
    generateSourceMap c5ctx (some idConsumer) "doc" "/f.vue" "var a = 1"
        (styleInjectLine c5ctx "css")
      = .ok ⟨"/f.vue?h1", "doc", [⟨"/f.vue?h1", 4, 0, 1, 0⟩]⟩
    ∧ resultNthLine (compileOnce c5ctx prodEnv mapOpts "doc" "/f.vue" emptyState).result 2
      = some "var a = 1"
    ∧ (4 : Nat) ≠ 1 + 2 :=
  ⟨rfl, rfl, by decide⟩

/-- C5 (amended): through an identity incoming consumer the generated map
holds one mapping per script line with generated line equal to the script
line plus the source's offset — the split-length of the preceding output
plus one, which is one more than the number of preceding output lines
whenever style-injection text precedes the script; and every mapping that
`addTemplateMapping` appends for the template-render region points to the
single document line where the template section starts. -/
theorem c5_map_lines (ctx : Ctx) (content filePath script out : String)
    (parts : ParsedComponent) (output : String) (m : SMap) (before : Nat)
    (t : SFCBlock) (ht : parts.template = some t) :
    generateSourceMap ctx (some idConsumer) content filePath script out
      = .ok ⟨hashedName ctx filePath content, content,
          (List.range (jsSplitLines script).length).map (fun i =>
            ⟨hashedName ctx filePath content,
              i + 1 + ((if out = "" then 0 else jsSplitLen out) + 1), 0, i + 1, 0⟩)⟩
    ∧ (((addTemplateMapping content parts output m before).mappings).drop
          m.mappings.length).all
        (fun mp => mp.origLine == jsSplitLen (strTake content t.start)) = true := by
  constructor
  · simp only [generateSourceMap]
    rw [buildScriptMappings_id]
  · simp only [addTemplateMapping]
    rw [ht]
    simp only [List.drop_left]
    simp [List.all_eq_true, List.mem_map]

/-- Witness for C5 (amended) at a concrete two-line script with no
preceding output and a concrete template remapping. -/
theorem c5_map_lines_witness :
    generateSourceMap c5ctx (some idConsumer) "doc" "/f.vue" "l1\nl2" ""
      = .ok ⟨hashedName c5ctx "/f.vue" "doc", "doc",
          (List.range (jsSplitLines "l1\nl2").length).map (fun i =>
            ⟨hashedName c5ctx "/f.vue" "doc",
              i + 1 + ((if ("" : String) = "" then 0 else jsSplitLen "") + 1), 0,
              i + 1, 0⟩)⟩
    ∧ (((addTemplateMapping "doc" ⟨some ⟨"x", none, none, false, 2⟩, none, []⟩
          "a\nb\nc" ⟨"hf", "doc", []⟩ 1).mappings).drop 0).all
        (fun mp => mp.origLine == jsSplitLen (strTake "doc" 2)) = true := by
  have h := c5_map_lines c5ctx "doc" "/f.vue" "l1\nl2" ""
    ⟨some ⟨"x", none, none, false, 2⟩, none, []⟩ "a\nb\nc" ⟨"hf", "doc", []⟩ 1
    ⟨"x", none, none, false, 2⟩ rfl
  exact ⟨h.1, h.2⟩

end Vueify
